import Mathlib

/-!
Verification of the InsideSuccess Link Ingestor service (`src/main.py`)
against its natural-language specification.

The embedding models the Python module shallowly:
  * JSON values (`json.loads` results, record fields) as the inductive `Json`;
  * Python `dict.get`, truthiness, `len`, `str.strip`, `str.splitlines`
    as explicit functions (`jsonGetD`, `pyTruthy`, `pyLen`, `pyStrip`,
    `pySplitlines`);
  * the module-level mutable list `INGESTS` as an explicit `List IngestRecord`
    threaded through the handlers;
  * the wall clock (`now_utc_iso`) as a `String` argument, since the stored
    timestamp is opaque to every property considered here.
-/

set_option maxRecDepth 8000

namespace LinkIngestor

/-- A JSON value, the result of `json.loads` and the type of record fields
that can carry arbitrary uploaded data. Numbers are modelled as integers:
no claim involves fractional numeric values. -/
inductive Json where
  | null : Json
  | bool : Bool → Json
  | num : Int → Json
  | str : String → Json
  | arr : List Json → Json
  | obj : List (String × Json) → Json

/-- Python `d[k]` lookup result for a JSON object: `some v` when the key is
present (even when the stored value is `null`), `none` when absent or when
the value is not an object at all. -/
def jsonGet (j : Json) (k : String) : Option Json :=
  match j with
  | .obj kvs => kvs.lookup k
  | _ => none

/-- Python `d.get(k, default)`: the stored value when the key is present
(including a stored `None`), the default otherwise. -/
def jsonGetD (j : Json) (k : String) (d : Json) : Json :=
  match jsonGet j k with
  | some v => v
  | none => d

/-- Python truthiness of a JSON value: `None`, `False`, `0`, `""`, `[]`,
and an empty object are falsy; everything else is truthy. -/
def pyTruthy : Json → Bool
  | .null => false
  | .bool b => b
  | .num n => n != 0
  | .str s => s != ""
  | .arr xs => !xs.isEmpty
  | .obj kvs => !kvs.isEmpty

/-- Python `len` on a JSON value: defined for strings, lists and objects;
`none` models the `TypeError` raised on `None`, booleans and numbers. -/
def pyLen : Json → Option Nat
  | .str s => some s.length
  | .arr xs => some xs.length
  | .obj kvs => some kvs.length
  | _ => none

/-- Characters Python's `str.strip()` removes (the ASCII whitespace set that
can occur in the inputs modelled here). -/
def isPySpace (c : Char) : Bool :=
  c = ' ' || c = '\t' || c = '\n' || c = '\x0d' || c = '\x0b' || c = '\x0c'

/-- Python `str.strip()`: drop leading and trailing whitespace. -/
def pyStrip (s : String) : String :=
  ⟨((s.data.dropWhile isPySpace).reverse.dropWhile isPySpace).reverse⟩

/-- Line-boundary characters recognised by Python `str.splitlines()`
(the ASCII subset; `\x0d\n` is handled as a single boundary in
`splitlinesAux`). -/
def isLineBreak (c : Char) : Bool :=
  c = '\n' || c = '\x0d' || c = '\x0b' || c = '\x0c' ||
  c = '\x1c' || c = '\x1d' || c = '\x1e'

/-- Worker for `pySplitlines`: `acc` holds the current line reversed;
`skipLF` records that the previous character was `\x0d`, so that an
immediately following `\n` belongs to the same `\x0d\n` boundary. -/
def splitlinesAux (skipLF : Bool) : List Char → List Char → List (List Char)
  | [], acc => if acc.isEmpty then [] else [acc.reverse]
  | c :: rest, acc =>
      if skipLF && c = '\n' then splitlinesAux false rest acc
      else if c = '\x0d' then acc.reverse :: splitlinesAux true rest []
      else if isLineBreak c then acc.reverse :: splitlinesAux false rest []
      else splitlinesAux false rest (c :: acc)

/-- Python `str.splitlines()`: split at line boundaries, boundaries not kept,
no trailing empty line for input ending in a boundary. -/
def pySplitlines (s : String) : List String :=
  (splitlinesAux false s.data []).map fun cs => ⟨cs⟩

/-- One stored ingest record: the Python dict built by the three handlers.
Fields that every handler sets from a Python string are `String`; fields
that the upload handler copies verbatim out of untrusted JSON are `Json`. -/
structure IngestRecord where
  received_at : String
  source : String
  page : Json
  platform : Json
  startDate : Json
  endDate : Json
  count : Nat
  items : Json
  client : Option String

/-- `MAX_INGESTS = 50` (src/main.py line 23). -/
def MAX_INGESTS : Nat := 50

/-- `push_ingest` (src/main.py lines 47-50): `INGESTS.insert(0, record)`,
then `del INGESTS[MAX_INGESTS:]` when the length exceeds the capacity. -/
def push_ingest (record : IngestRecord) (store : List IngestRecord) :
    List IngestRecord :=
  let s := record :: store
  if s.length > MAX_INGESTS then s.take MAX_INGESTS else s

/-- Modelled from the spec: validation performed by pydantic's `HttpUrl`
type on `Item.url` (library code, not part of this repository). Following
the spec's words, the string must be a syntactically valid absolute
http(s) URL: an `http` or `https` scheme marker followed by a nonempty
host part. -/
def isValidHttpUrl (s : String) : Bool :=
  let hostOk := fun (rest : List Char) =>
    !(rest.takeWhile fun c => c ≠ '/' && c ≠ '?' && c ≠ '#').isEmpty
  if "http://".data.isPrefixOf s.data then hostOk (s.data.drop 7)
  else if "https://".data.isPrefixOf s.data then hostOk (s.data.drop 8)
  else false

/-- `class Item(BaseModel)` (src/main.py lines 27-31): a validated link
entry. `url` is the URL string after passing `isValidHttpUrl`. -/
structure Item where
  platform : String
  dateISO : Option String
  url : String
  text : Option String

/-- `class Payload(BaseModel)` (src/main.py lines 34-40). -/
structure Payload where
  source : String
  page : String
  platform : String
  startDate : String
  endDate : String
  items : List Item

/-- A required pydantic `str` field: present and a JSON string. -/
def reqStr (j : Json) (k : String) : Option String :=
  match jsonGet j k with
  | some (.str s) => some s
  | _ => none

/-- An `Optional[str] = None` pydantic field: absent or `null` give `none`,
a string gives `some`, any other type is a validation error. -/
def optStrField (j : Json) (k : String) : Option (Option String) :=
  match jsonGet j k with
  | none => some none
  | some .null => some none
  | some (.str s) => some (some s)
  | some _ => none

/-- Pydantic validation of one element of `Payload.items` against `Item`:
`platform` and `url` are required strings, `url` must be a valid http(s)
URL, `dateISO` and `text` are optional strings. -/
def parseItem (j : Json) : Option Item := do
  let platform ← reqStr j "platform"
  let dateISO ← optStrField j "dateISO"
  let url ← reqStr j "url"
  if isValidHttpUrl url then
    let text ← optStrField j "text"
    pure { platform := platform, dateISO := dateISO, url := url, text := text }
  else none

/-- FastAPI/pydantic validation of a request body against `Payload`:
all five string fields required, `items` a list whose every element
validates as an `Item`. Failure means the request is rejected with a
validation error before the handler body runs. -/
def parsePayload (j : Json) : Option Payload := do
  let source ← reqStr j "source"
  let page ← reqStr j "page"
  let platform ← reqStr j "platform"
  let startDate ← reqStr j "startDate"
  let endDate ← reqStr j "endDate"
  let itemsJ ← jsonGet j "items"
  let rawItems ← (match itemsJ with | .arr xs => some xs | _ => none)
  let items ← rawItems.mapM parseItem
  pure { source := source, page := page, platform := platform,
         startDate := startDate, endDate := endDate, items := items }

/-- `it.model_dump()` for a validated `Item`: the dict stored inside the
record's `items` list. Absent optional fields are dumped as `None`. -/
def itemToJson (it : Item) : Json :=
  .obj [("platform", .str it.platform),
        ("dateISO", match it.dateISO with | some s => .str s | none => .null),
        ("url", .str it.url),
        ("text", match it.text with | some s => .str s | none => .null)]

/-- The FastAPI `Request` object as far as the handlers can see it:
transport headers and the client host. The source reads only
`request.client`. -/
structure Request where
  headers : List (String × String)
  client : Option String

/-- Outcome of `POST /ingest`: the JSON success body, or the framework's
validation-error response (pydantic rejected the payload before the
handler body ran). -/
inductive IngestResult where
  | ok : Nat → IngestResult
  | validationError : IngestResult

/-- The record dict built by `ingest` (src/main.py lines 261-271). -/
def mkIngestRecord (now : String) (req : Request) (p : Payload) :
    IngestRecord :=
  { received_at := now
    source := p.source
    page := .str p.page
    platform := .str p.platform
    startDate := .str p.startDate
    endDate := .str p.endDate
    count := p.items.length
    items := .arr (p.items.map itemToJson)
    client := req.client }

/-- `POST /ingest` (src/main.py lines 259-282) including the framework's
payload validation: on success the record is pushed and
`{status: ok, count}` returned; on validation failure the store is
untouched. The handler never reads `req.headers`. -/
def ingestEndpoint (body : Json) (now : String) (req : Request)
    (store : List IngestRecord) : List IngestRecord × IngestResult :=
  match parsePayload body with
  | none => (store, .validationError)
  | some p => (push_ingest (mkIngestRecord now req p) store, .ok p.items.length)

/-- Outcome of `POST /upload`: the 400 "Invalid JSON file" page, an
unhandled Python exception escaping the handler, or the success page. -/
inductive UploadResult where
  | invalidJson : UploadResult
  | unhandled : UploadResult
  | saved : UploadResult

/-- The record dict built by `upload_json` (src/main.py lines 317-327)
for an object payload, given `n = len(items)`. -/
def uploadRecord (payload : Json) (now : String) (n : Nat) : IngestRecord :=
  let platform :=
    jsonGetD payload "platform" (jsonGetD payload "sourcePlatform" (.str "unknown"))
  { received_at := now
    source := "upload"
    page := jsonGetD payload "page" (.str "uploaded-file")
    platform := if pyTruthy platform then platform else .str "unknown"
    startDate := jsonGetD payload "startDate" (.str "")
    endDate := jsonGetD payload "endDate" (.str "")
    count := n
    items := jsonGetD payload "items" (.arr [])
    client := none }

/-- `POST /upload` (src/main.py lines 301-330). The argument is the result
of `json.loads` on the uploaded bytes (`none` = parse failure, handled by
the `except` branch). A non-object payload crashes at `payload.get`
(`AttributeError`); an `items` value with no `len` crashes at
`len(items)` (`TypeError`); both are the `unhandled` outcome. -/
def upload_json (parsed : Option Json) (now : String)
    (store : List IngestRecord) : List IngestRecord × UploadResult :=
  match parsed with
  | none => (store, .invalidJson)
  | some payload =>
    match payload with
    | .obj _ =>
      match pyLen (jsonGetD payload "items" (.arr [])) with
      | none => (store, .unhandled)
      | some n => (push_ingest (uploadRecord payload now n) store, .saved)
    | _ => (store, .unhandled)

/-- The line comprehension of `manual_links` (src/main.py line 339):
`[ln.strip() for ln in urls.splitlines() if ln.strip()]`. -/
def manualLines (urls : String) : List String :=
  (pySplitlines urls).filterMap fun ln =>
    if pyStrip ln ≠ "" then some (pyStrip ln) else none

/-- The item dict built for one pasted line (src/main.py line 340).
`dateISO or ""` is the identity on strings, so `dateISO` is kept as is. -/
def manualItem (platform dateISO ln : String) : Json :=
  .obj [("platform", .str platform), ("dateISO", .str dateISO),
        ("url", .str ln), ("text", .str "")]

/-- `POST /manual` (src/main.py lines 333-355): build one item per
non-blank trimmed line, push one record, return the success page. -/
def manual_links (platform dateISO urls : String) (now : String)
    (store : List IngestRecord) : List IngestRecord :=
  let items := (manualLines urls).map (manualItem platform dateISO)
  let record : IngestRecord :=
    { received_at := now
      source := "manual"
      page := .str "manual-input"
      platform := .str platform
      startDate := .str ""
      endDate := .str ""
      count := items.length
      items := .arr items
      client := none }
  push_ingest record store

/-- Python `str()` of a JSON value as the `csv` module applies it to
non-string cells (container cells use `repr`-style rendering; quote
escaping inside nested reprs, which no stored shape exercises, is
elided). -/
def pyRepr : Json → String
  | .null => "None"
  | .bool b => if b then "True" else "False"
  | .num n => toString n
  | .str s => "\x27" ++ s ++ "\x27"
  | .arr xs => "[" ++ String.intercalate ", " (xs.attach.map fun x => pyRepr x.1) ++ "]"
  | .obj kvs =>
      "\x7b" ++
        String.intercalate ", "
          (kvs.attach.map fun kv => "\x27" ++ kv.1.1 ++ "\x27: " ++ pyRepr kv.1.2) ++
      "\x7d"
  decreasing_by
  · simp_wf
    have h := List.sizeOf_lt_of_mem x.2
    omega
  · simp_wf
    obtain ⟨⟨a, b⟩, hm⟩ := kv
    have h := List.sizeOf_lt_of_mem hm
    simp only [Prod.mk.sizeOf_spec] at h
    simp only []
    omega

/-- The string `csv.writer` puts in a cell for one value: `None` becomes
the empty string, strings are kept, everything else goes through
`str()`. -/
def csvCell : Json → String
  | .null => ""
  | .str s => s
  | v => pyRepr v

/-- `csv.writer` field escaping with the default QUOTE_MINIMAL dialect:
a field containing the delimiter, the quote character, or a character of
the `\x0d\n` line terminator is wrapped in quotes with embedded quotes
doubled; all other fields are written verbatim. -/
def csvEscape (s : String) : String :=
  if s.data.any fun c => c = ',' || c = '"' || c = '\x0d' || c = '\n' then
    "\"" ++ ⟨s.data.flatMap fun c => if c = '"' then ['"', '"'] else [c]⟩ ++ "\""
  else s

/-- One `writer.writerow` call: escaped cells joined by commas,
terminated by the default `\x0d\n`. -/
def csvRow (cells : List String) : String :=
  String.intercalate "," (cells.map csvEscape) ++ "\x0d\n"

/-- Python `s.replace("\n", " ")`: both pattern and replacement are single
characters, so the replacement is a character map. -/
def replaceLF (s : String) : String :=
  ⟨s.data.map fun c => if c = '\n' then ' ' else c⟩

/-- The `text` cell of one CSV data row (src/main.py line 69):
`(it.get("text", "") or "").replace("\n", " ").strip()`. A falsy value
collapses to the empty string; a truthy non-string value has no
`.replace` and raises (`none`). -/
def textCell (v : Json) : Option String :=
  if pyTruthy v then
    match v with
    | .str s => some (pyStrip (replaceLF s))
    | _ => none
  else some ""

/-- One iteration of the row loop of `csv_from_items`
(src/main.py lines 64-70); a non-dict item has no `.get` and raises. -/
def rowOfItem (it : Json) : Option String :=
  match it with
  | .obj _ => do
    let t ← textCell (jsonGetD it "text" (.str ""))
    pure (csvRow [csvCell (jsonGetD it "platform" (.str "")),
                  csvCell (jsonGetD it "dateISO" (.str "")),
                  csvCell (jsonGetD it "url" (.str "")),
                  t])
  | _ => none

/-- `csv_from_items` (src/main.py lines 60-71): header row then one row
per item; `none` models an exception escaping the loop. -/
def csv_from_items (items : List Json) : Option String :=
  (items.mapM rowOfItem).map fun rows =>
    csvRow ["platform", "dateISO", "url", "text"] ++ String.join rows

/-- `latest_items_flat` (src/main.py lines 53-57): the newest record's
`items` value, `[]` for an empty store. Every record dict carries an
`items` key, so `.get("items", [])` is exactly the field. -/
def latest_items_flat (store : List IngestRecord) : Json :=
  match store with
  | [] => .arr []
  | r :: _ => r.items

/-- Python iteration over a JSON value (`for it in items`): a list yields
its elements, a string its one-character substrings, an object its keys;
other values raise `TypeError` (`none`). -/
def jsonIter : Json → Option (List Json)
  | .arr xs => some xs
  | .str s => some (s.data.map fun c => .str ⟨[c]⟩)
  | .obj kvs => some (kvs.map fun kv => .str kv.1)
  | _ => none

/-- Outcome of `GET /download/latest.csv`: a 200 `text/csv` response with
the given body, or an unhandled exception. No not-found branch exists in
the source. -/
inductive CsvResult where
  | file : String → CsvResult
  | unhandled : CsvResult

/-- `download_latest_csv` (src/main.py lines 290-298): always builds and
returns a CSV response from the newest record's items (header alone when
the store is empty). -/
def download_latest_csv (store : List IngestRecord) : CsvResult :=
  match jsonIter (latest_items_flat store) with
  | none => .unhandled
  | some items =>
    match csv_from_items items with
    | none => .unhandled
    | some text => .file text

/-! ### Store lemmas -/

theorem take_append_take (n : Nat) (A B : List α) :
    (A ++ B.take n).take n = (A ++ B).take n := by
  rw [List.take_append_eq_append_take, List.take_append_eq_append_take,
    List.take_take, Nat.min_eq_left (Nat.sub_le _ _)]

theorem push_ingest_eq_take (r : IngestRecord) (s : List IngestRecord) :
    push_ingest r s = (r :: s).take MAX_INGESTS := by
  unfold push_ingest
  dsimp only []
  split
  · rfl
  · rename_i h
    rw [List.take_of_length_le (by omega)]

theorem length_push_ingest_le (r : IngestRecord) (s : List IngestRecord) :
    (push_ingest r s).length ≤ MAX_INGESTS := by
  rw [push_ingest_eq_take]
  simp [List.length_take]

theorem foldl_push_ingest (rs : List IngestRecord) (s : List IngestRecord)
    (h : s.length ≤ MAX_INGESTS) :
    rs.foldl (fun t r => push_ingest r t) s =
      (rs.reverse ++ s).take MAX_INGESTS := by
  induction rs generalizing s with
  | nil => simp [List.take_of_length_le h]
  | cons r rest ih =>
    rw [List.foldl_cons, ih _ (length_push_ingest_le r s),
      push_ingest_eq_take, take_append_take]
    simp

theorem mem_push_ingest {x r : IngestRecord} {s : List IngestRecord}
    (hx : x ∈ push_ingest r s) : x = r ∨ x ∈ s := by
  rw [push_ingest_eq_take] at hx
  have := List.mem_of_mem_take hx
  simpa using this

/-- C1: for every sequence of more than `MAX_INGESTS = 50` insertions into
the empty store, the final store has exactly 50 records and consists of the
50 most recently inserted records, newest first; moreover each single
insert prepends the record and truncates to at most 50 elements. -/
theorem C1_bounded_history_store (rs : List IngestRecord)
    (h : rs.length > MAX_INGESTS) :
    (rs.foldl (fun t r => push_ingest r t) []).length = MAX_INGESTS ∧
    rs.foldl (fun t r => push_ingest r t) [] = rs.reverse.take MAX_INGESTS ∧
    ∀ r s, push_ingest r s = (r :: s).take MAX_INGESTS := by
  refine ⟨?_, ?_, fun r s => push_ingest_eq_take r s⟩
  · rw [foldl_push_ingest _ _ (by simp)]
    simp [List.length_take]
    omega
  · rw [foldl_push_ingest _ _ (by simp)]
    simp

/-- A concrete record used to instantiate the store theorems. -/
def sampleRecord (i : Nat) : IngestRecord :=
  { received_at := "", source := "", page := .str "", platform := .str "",
    startDate := .str "", endDate := .str "", count := i, items := .arr [],
    client := none }

/-- C1 witness: 51 concrete insertions leave exactly the 50 newest records. -/
theorem C1_bounded_history_store_witness :
    ((List.range 51).map sampleRecord).length > MAX_INGESTS ∧
    ((((List.range 51).map sampleRecord).foldl
        (fun t r => push_ingest r t) []).length = MAX_INGESTS ∧
      ((List.range 51).map sampleRecord).foldl (fun t r => push_ingest r t) [] =
        ((List.range 51).map sampleRecord).reverse.take MAX_INGESTS ∧
      ∀ r s, push_ingest r s = (r :: s).take MAX_INGESTS) :=
  ⟨by simp [MAX_INGESTS],
   C1_bounded_history_store _ (by simp [MAX_INGESTS])⟩

/-! ### The count invariant -/

/-- The record invariant of the spec: the `count` field is Python
`len` of the `items` value. -/
def recordCountOk (r : IngestRecord) : Prop :=
  pyLen r.items = some r.count

/-- C2: every record stored by any of the three producer paths satisfies
`count = len(items)` at construction, and since no operation ever mutates
a stored record (the handlers only build fresh records and `push_ingest`
only reorders and truncates), the invariant holds at all times; `count` is
only ever computed from the items value, never set independently. -/
theorem C2_count_equals_items_length (store : List IngestRecord)
    (hstore : ∀ r ∈ store, recordCountOk r) :
    (∀ body now req r, r ∈ (ingestEndpoint body now req store).1 →
      recordCountOk r) ∧
    (∀ parsed now r, r ∈ (upload_json parsed now store).1 →
      recordCountOk r) ∧
    (∀ platform dateISO urls now r,
      r ∈ manual_links platform dateISO urls now store → recordCountOk r) := by
  refine ⟨?_, ?_, ?_⟩
  · intro body now req r hr
    unfold ingestEndpoint at hr
    cases hp : parsePayload body with
    | none => rw [hp] at hr; exact hstore r hr
    | some p =>
      rw [hp] at hr
      rcases mem_push_ingest hr with rfl | hmem
      · simp [recordCountOk, mkIngestRecord, pyLen]
      · exact hstore r hmem
  · intro parsed now r hr
    match parsed with
    | none => exact hstore r hr
    | some .null | some (.bool _) | some (.num _) | some (.str _)
    | some (.arr _) => exact hstore r hr
    | some (.obj kvs) =>
      simp only [upload_json] at hr
      split at hr
      · exact hstore r hr
      · rename_i n hlen
        rcases mem_push_ingest hr with rfl | hmem
        · exact hlen
        · exact hstore r hmem
  · intro platform dateISO urls now r hr
    unfold manual_links at hr
    rcases mem_push_ingest hr with rfl | hmem
    · simp [recordCountOk, pyLen]
    · exact hstore r hmem

/-- C2 witness: the invariant propagation instantiated at the empty store. -/
theorem C2_count_equals_items_length_witness :
    (∀ r ∈ ([] : List IngestRecord), recordCountOk r) ∧
    ((∀ body now req r, r ∈ (ingestEndpoint body now req []).1 →
        recordCountOk r) ∧
      (∀ parsed now r, r ∈ (upload_json parsed now []).1 → recordCountOk r) ∧
      (∀ platform dateISO urls now r,
        r ∈ manual_links platform dateISO urls now [] → recordCountOk r)) :=
  ⟨by simp, C2_count_equals_items_length [] (by simp)⟩

/-! ### CSV export on the empty store -/

/-- C3 counterexample: invoked on the empty store, the CSV export handler
returns a 200 CSV response consisting of the header row alone — there is
no not-found branch anywhere in `download_latest_csv`, so the claimed
not-found condition never occurs. -/
theorem C3_empty_store_counterexample :
    download_latest_csv [] = .file "platform,dateISO,url,text\x0d\n" := rfl

/-- C3 amended: when the store contains zero records, the CSV export
returns a CSV file consisting of exactly the header row
`platform,dateISO,url,text`; no not-found condition is reported. -/
theorem C3_empty_store_header_only (store : List IngestRecord)
    (h : store.length = 0) :
    download_latest_csv store = .file "platform,dateISO,url,text\x0d\n" := by
  cases store with
  | nil => rfl
  | cons r rest => simp at h

/-- C3 witness: the amended statement at the empty store. -/
theorem C3_empty_store_header_only_witness :
    ([] : List IngestRecord).length = 0 ∧
    download_latest_csv [] = .file "platform,dateISO,url,text\x0d\n" :=
  ⟨rfl, C3_empty_store_header_only [] rfl⟩

/-! ### The push endpoint and secrets -/

/-- A concrete well-formed push body used to exercise the push endpoint. -/
def pushBody : Json :=
  .obj [("source", .str "om"), ("page", .str "profile"),
        ("platform", .str "x"), ("startDate", .str "2026-01-01"),
        ("endDate", .str "2026-01-31"),
        ("items", .arr [.obj [("platform", .str "x"),
                              ("url", .str "https://x.com/a/status/1")]])]

/-- The payload `pushBody` validates to. -/
def pushPayload : Payload :=
  { source := "om", page := "profile", platform := "x",
    startDate := "2026-01-01", endDate := "2026-01-31",
    items := [{ platform := "x", dateISO := none,
                url := "https://x.com/a/status/1", text := none }] }

/-- C4 counterexample: a push call presenting no secret header at all is
accepted (`status ok`) and inserts a record into the empty store, so the
claimed unauthorized rejection of secretless calls never happens — the
handler contains no secret check whatsoever. -/
theorem C4_no_gate_counterexample :
    (ingestEndpoint pushBody "t" ⟨[], none⟩ []).2 = .ok 1 ∧
    (ingestEndpoint pushBody "t" ⟨[], none⟩ []).1.length = 1 :=
  ⟨rfl, rfl⟩

/-- C4 amended: the push endpoint implements no access gate: its result is
completely independent of the request headers (so of any presented secret,
matching or not, under any configured secret), and every payload that
passes validation is inserted and acknowledged. -/
theorem C4_push_ignores_secret_header (body : Json) (now : String)
    (h₁ h₂ : List (String × String)) (c : Option String)
    (store : List IngestRecord) :
    ingestEndpoint body now ⟨h₁, c⟩ store =
      ingestEndpoint body now ⟨h₂, c⟩ store ∧
    (∀ p, parsePayload body = some p →
      ingestEndpoint body now ⟨h₁, c⟩ store =
        (push_ingest (mkIngestRecord now ⟨h₁, c⟩ p) store,
          .ok p.items.length)) := by
  constructor
  · unfold ingestEndpoint
    cases parsePayload body <;> rfl
  · intro p hp
    unfold ingestEndpoint
    rw [hp]

/-- C4 witness: with and without a secret-bearing header the endpoint
behaves identically, and the secretless call stores the record. -/
theorem C4_push_ignores_secret_header_witness :
    ingestEndpoint pushBody "t" ⟨[("x-shared-secret", "s3cret")], none⟩ [] =
      ingestEndpoint pushBody "t" ⟨[], none⟩ [] ∧
    ingestEndpoint pushBody "t" ⟨[("x-shared-secret", "s3cret")], none⟩ [] =
      (push_ingest
        (mkIngestRecord "t" ⟨[("x-shared-secret", "s3cret")], none⟩
          pushPayload) [], .ok 1) :=
  ⟨(C4_push_ignores_secret_header pushBody "t" _ _ none []).1,
   (C4_push_ignores_secret_header pushBody "t" _ [] none []).2
      pushPayload rfl⟩

/-! ### Payload validation -/

/-- The item carries a `url` field holding a string that is not a valid
absolute http(s) URL. -/
def itemHasBadUrl (it : Json) : Bool :=
  match jsonGet it "url" with
  | some (.str u) => !isValidHttpUrl u
  | _ => false

/-- The item lacks one of its required string fields. -/
def itemMissingRequired (it : Json) : Bool :=
  (jsonGet it "platform").isNone || (jsonGet it "url").isNone

/-- The push body is malformed in one of the ways claim C5 describes:
a required top-level field is absent, or some item lacks a required field
or carries a malformed URL string. -/
def payloadBad (body : Json) : Bool :=
  (jsonGet body "source").isNone || (jsonGet body "page").isNone ||
  (jsonGet body "platform").isNone || (jsonGet body "startDate").isNone ||
  (jsonGet body "endDate").isNone || (jsonGet body "items").isNone ||
  (match jsonGet body "items" with
   | some (.arr its) =>
       its.any fun it => itemMissingRequired it || itemHasBadUrl it
   | _ => false)

theorem reqStr_some_get {j : Json} {k : String} {s : String}
    (h : reqStr j k = some s) : jsonGet j k = some (.str s) := by
  unfold reqStr at h
  split at h
  · rename_i heq
    cases h
    exact heq
  · cases h

theorem parseItem_eq_none_of_bad {it : Json}
    (h : (itemMissingRequired it || itemHasBadUrl it) = true) :
    parseItem it = none := by
  cases hp : reqStr it "platform" with
  | none => simp [parseItem, hp]
  | some pf =>
    cases hd : optStrField it "dateISO" with
    | none => simp [parseItem, hp, hd]
    | some d =>
      cases hu : reqStr it "url" with
      | none => simp [parseItem, hp, hd, hu]
      | some u =>
        have hvalid : isValidHttpUrl u = false := by
          simp only [itemMissingRequired, itemHasBadUrl, Bool.or_eq_true,
            Option.isNone_iff_eq_none] at h
          rcases h with (h | h) | h
          · rw [reqStr_some_get hp] at h; cases h
          · rw [reqStr_some_get hu] at h; cases h
          · rw [reqStr_some_get hu] at h
            simpa using h
        simp [parseItem, hp, hd, hu, hvalid]

theorem mapM_parseItem_eq_none {l : List Json}
    (h : ∃ it ∈ l, parseItem it = none) : l.mapM parseItem = none := by
  induction l with
  | nil => simp at h
  | cons a l ih =>
    rw [List.mapM_cons]
    rcases h with ⟨it, hmem, hnone⟩
    rcases List.mem_cons.mp hmem with rfl | hmem
    · rw [hnone]; rfl
    · rw [ih ⟨it, hmem, hnone⟩]
      cases parseItem a <;> rfl

/-- C5: a direct push submission whose body lacks a required string field
or contains an item with a malformed URL string (or missing required item
field) fails pydantic validation: the whole submission is rejected with a
validation error and the store is returned unchanged. -/
theorem C5_invalid_payload_rejected (body : Json) (now : String)
    (req : Request) (store : List IngestRecord)
    (h : payloadBad body = true) :
    parsePayload body = none ∧
    ingestEndpoint body now req store = (store, .validationError) := by
  have hparse : parsePayload body = none := by
    cases hs : reqStr body "source" with
    | none => simp [parsePayload, hs]
    | some source =>
    cases hpg : reqStr body "page" with
    | none => simp [parsePayload, hs, hpg]
    | some page =>
    cases hpl : reqStr body "platform" with
    | none => simp [parsePayload, hs, hpg, hpl]
    | some platform =>
    cases hsd : reqStr body "startDate" with
    | none => simp [parsePayload, hs, hpg, hpl, hsd]
    | some startDate =>
    cases hed : reqStr body "endDate" with
    | none => simp [parsePayload, hs, hpg, hpl, hsd, hed]
    | some endDate =>
    cases hit : jsonGet body "items" with
    | none => simp [parsePayload, hs, hpg, hpl, hsd, hed, hit]
    | some itemsJ =>
      simp only [payloadBad, Bool.or_eq_true, Option.isNone_iff_eq_none] at h
      rcases h with ((((((h | h) | h) | h) | h) | h) | h)
      · rw [reqStr_some_get hs] at h; cases h
      · rw [reqStr_some_get hpg] at h; cases h
      · rw [reqStr_some_get hpl] at h; cases h
      · rw [reqStr_some_get hsd] at h; cases h
      · rw [reqStr_some_get hed] at h; cases h
      · rw [hit] at h; cases h
      · rw [hit] at h
        cases itemsJ with
        | arr its =>
          simp only [List.any_eq_true] at h
          rcases h with ⟨it, hmem, hbad⟩
          have hm := mapM_parseItem_eq_none
            ⟨it, hmem, parseItem_eq_none_of_bad hbad⟩
          simp only [List.mapM] at hm
          simp [parsePayload, hs, hpg, hpl, hsd, hed, hit, hm]
        | null => simp [parsePayload, hs, hpg, hpl, hsd, hed, hit]
        | bool b => simp [parsePayload, hs, hpg, hpl, hsd, hed, hit]
        | num n => simp [parsePayload, hs, hpg, hpl, hsd, hed, hit]
        | str s => simp [parsePayload, hs, hpg, hpl, hsd, hed, hit]
        | obj kvs => simp [parsePayload, hs, hpg, hpl, hsd, hed, hit]
  refine ⟨hparse, ?_⟩
  unfold ingestEndpoint
  rw [hparse]

/-- A concrete push body carrying one item whose url is `not-a-url`. -/
def badUrlBody : Json :=
  .obj [("source", .str "om"), ("page", .str "profile"),
        ("platform", .str "x"), ("startDate", .str ""), ("endDate", .str ""),
        ("items", .arr [.obj [("platform", .str "x"),
                              ("url", .str "not-a-url")]])]

/-- C5 witness: the `not-a-url` submission of the spec is rejected and the
store is unchanged. -/
theorem C5_invalid_payload_rejected_witness :
    payloadBad badUrlBody = true ∧
    (parsePayload badUrlBody = none ∧
      ingestEndpoint badUrlBody "t" ⟨[], none⟩ [] =
        ([], .validationError)) :=
  ⟨rfl, C5_invalid_payload_rejected badUrlBody "t" ⟨[], none⟩ [] rfl⟩

/-! ### CSV encoding of canonical items -/

/-- The caption cleaning the spec describes, minus the truncation the code
does not perform: LF characters become single spaces, then surrounding
whitespace is trimmed. -/
def cleanCaption (t : Option String) : String :=
  pyStrip (replaceLF (t.getD ""))

/-- The fixed CSV header row. -/
def csvHeader : String :=
  csvRow ["platform", "dateISO", "url", "text"]

/-- The data row the spec describes for one canonical item. -/
def csvSpecRow (it : Item) : String :=
  csvRow [it.platform, it.dateISO.getD "", it.url, cleanCaption it.text]

/-- The whole CSV document the spec describes for a canonical item list. -/
def csvSpecOf (items : List Item) : String :=
  csvHeader ++ String.join (items.map csvSpecRow)

theorem rowOfItem_itemToJson (it : Item) :
    rowOfItem (itemToJson it) = some (csvSpecRow it) := by
  obtain ⟨pf, dISO, url, txt⟩ := it
  cases txt with
  | none => cases dISO <;> rfl
  | some s =>
    by_cases hs : s = ""
    · subst hs; cases dISO <;> rfl
    · cases dISO <;>
        simp [rowOfItem, itemToJson, jsonGetD, jsonGet, textCell, pyTruthy,
          csvSpecRow, cleanCaption, csvCell, hs, List.lookup]

theorem mapM_rowOfItem (l : List Item) :
    (l.map itemToJson).mapM rowOfItem = some (l.map csvSpecRow) := by
  induction l with
  | nil => rfl
  | cons a l ih =>
    rw [List.map_cons, List.mapM_cons, rowOfItem_itemToJson, ih]
    rfl

/-- A 300-character caption, long enough to witness the absence of the
240-character truncation. -/
def longCaption : String := ⟨List.replicate 300 'a'⟩

/-- A canonical item dict whose caption is 300 characters long. -/
def longItem : Json :=
  .obj [("platform", .str "p"), ("dateISO", .str "d"), ("url", .str "u"),
        ("text", .str longCaption)]

/-- C6 counterexample: the encoder emits the 300-character caption in
full — no truncation to 240 characters takes place. -/
theorem C6_no_truncation_counterexample :
    csv_from_items [longItem] =
      some ("platform,dateISO,url,text\x0d\n" ++ "p,d,u," ++ longCaption ++
        "\x0d\n") ∧
    longCaption.length = 300 :=
  ⟨rfl, rfl⟩

/-- C6 amended: for every canonical item sequence the encoder produces the
fixed header row followed by exactly one data row per item in order, each
caption having its LF characters replaced by single spaces and surrounding
whitespace trimmed (with no length truncation), and each field escaped by
the minimal CSV quoting rule (fields containing commas, quotes, CR or LF
are quoted, embedded quotes doubled). -/
theorem C6_csv_encoding (items : List Item) :
    csv_from_items (items.map itemToJson) = some (csvSpecOf items) := by
  unfold csv_from_items csvSpecOf csvHeader
  rw [mapM_rowOfItem]
  rfl

/-! ### Upload platform inference -/

theorem head?_push_ingest (r : IngestRecord) (s : List IngestRecord) :
    (push_ingest r s).head? = some r := by
  rw [push_ingest_eq_take]
  rfl

/-- An upload payload in the generic export shape: no top-level platform,
but the first item carries `platform: "x"`. -/
def genericUpload : Json :=
  .obj [("items", .arr [.obj [("platform", .str "x"),
                              ("url", .str "https://x.com/a")]])]

/-- C7 counterexample: for the generic export shape with no top-level
platform, the stored record's platform is `"unknown"` even though the
first item's platform field is `"x"` — the handler never inspects the
items to infer a platform. -/
theorem C7_platform_counterexample :
    ((upload_json (some genericUpload) "t" []).1.head?).map
        (fun r => r.platform) = some (.str "unknown") ∧
    Json.str "unknown" ≠ Json.str "x" :=
  ⟨rfl, by simp⟩

/-- C7 amended: the upload handler takes the record's platform from the
top-level `platform` field, falling back to the top-level `sourcePlatform`
field and then to `"unknown"`; a falsy top-level platform value is also
replaced by `"unknown"`. The items list (in particular the first item's
platform field) is never consulted. -/
theorem C7_upload_platform_top_level (kvs : List (String × Json))
    (now : String) (store : List IngestRecord) :
    (jsonGet (.obj kvs) "platform" = none →
      jsonGet (.obj kvs) "sourcePlatform" = none →
      (upload_json (some (.obj kvs)) now store).2 = .saved →
      ((upload_json (some (.obj kvs)) now store).1.head?).map
        (fun r => r.platform) = some (.str "unknown")) ∧
    (∀ v, jsonGet (.obj kvs) "platform" = some v → pyTruthy v = true →
      (upload_json (some (.obj kvs)) now store).2 = .saved →
      ((upload_json (some (.obj kvs)) now store).1.head?).map
        (fun r => r.platform) = some v) ∧
    (∀ v, jsonGet (.obj kvs) "platform" = some v → pyTruthy v = false →
      (upload_json (some (.obj kvs)) now store).2 = .saved →
      ((upload_json (some (.obj kvs)) now store).1.head?).map
        (fun r => r.platform) = some (.str "unknown")) ∧
    (∀ w, jsonGet (.obj kvs) "platform" = none →
      jsonGet (.obj kvs) "sourcePlatform" = some w → pyTruthy w = true →
      (upload_json (some (.obj kvs)) now store).2 = .saved →
      ((upload_json (some (.obj kvs)) now store).1.head?).map
        (fun r => r.platform) = some w) ∧
    (∀ w, jsonGet (.obj kvs) "platform" = none →
      jsonGet (.obj kvs) "sourcePlatform" = some w → pyTruthy w = false →
      (upload_json (some (.obj kvs)) now store).2 = .saved →
      ((upload_json (some (.obj kvs)) now store).1.head?).map
        (fun r => r.platform) = some (.str "unknown")) := by
  refine ⟨?_, ?_, ?_, ?_, ?_⟩
  · intro h1 h2 hsaved
    simp only [upload_json] at hsaved ⊢
    cases hlen : pyLen (jsonGetD (.obj kvs) "items" (.arr [])) with
    | none => rw [hlen] at hsaved; cases hsaved
    | some n =>
      simp [head?_push_ingest, uploadRecord, jsonGetD, h1, h2]
  · intro v hv htruthy hsaved
    simp only [upload_json] at hsaved ⊢
    cases hlen : pyLen (jsonGetD (.obj kvs) "items" (.arr [])) with
    | none => rw [hlen] at hsaved; cases hsaved
    | some n =>
      simp [head?_push_ingest, uploadRecord, jsonGetD, hv, htruthy]
  · intro v hv hfalsy hsaved
    simp only [upload_json] at hsaved ⊢
    cases hlen : pyLen (jsonGetD (.obj kvs) "items" (.arr [])) with
    | none => rw [hlen] at hsaved; cases hsaved
    | some n =>
      simp [head?_push_ingest, uploadRecord, jsonGetD, hv, hfalsy]
  · intro w h1 hw htruthy hsaved
    simp only [upload_json] at hsaved ⊢
    cases hlen : pyLen (jsonGetD (.obj kvs) "items" (.arr [])) with
    | none => rw [hlen] at hsaved; cases hsaved
    | some n =>
      simp [head?_push_ingest, uploadRecord, jsonGetD, h1, hw, htruthy]
  · intro w h1 hw hfalsy hsaved
    simp only [upload_json] at hsaved ⊢
    cases hlen : pyLen (jsonGetD (.obj kvs) "items" (.arr [])) with
    | none => rw [hlen] at hsaved; cases hsaved
    | some n =>
      simp [head?_push_ingest, uploadRecord, jsonGetD, h1, hw, hfalsy]

/-- C7 witness: the amended platform selection at five concrete uploads —
no top-level platform at all stores `"unknown"`; `platform: "instagram"`
stores `"instagram"`; the falsy `platform: ""` stores `"unknown"`;
`sourcePlatform: "tiktok"` with no `platform` key stores `"tiktok"`;
the falsy `sourcePlatform: null` with no `platform` key stores
`"unknown"`. -/
theorem C7_upload_platform_top_level_witness :
    (((upload_json (some genericUpload) "t" []).1.head?).map
        (fun r => r.platform) = some (.str "unknown")) ∧
    (((upload_json
          (some (.obj [("platform", .str "instagram"), ("items", .arr [])]))
          "t" []).1.head?).map
        (fun r => r.platform) = some (.str "instagram")) ∧
    (((upload_json
          (some (.obj [("platform", .str ""), ("items", .arr [])]))
          "t" []).1.head?).map
        (fun r => r.platform) = some (.str "unknown")) ∧
    (((upload_json
          (some (.obj [("sourcePlatform", .str "tiktok"),
                       ("items", .arr [])]))
          "t" []).1.head?).map
        (fun r => r.platform) = some (.str "tiktok")) ∧
    (((upload_json
          (some (.obj [("sourcePlatform", Json.null), ("items", .arr [])]))
          "t" []).1.head?).map
        (fun r => r.platform) = some (.str "unknown")) :=
  ⟨(C7_upload_platform_top_level
      [("items", .arr [.obj [("platform", .str "x"),
                             ("url", .str "https://x.com/a")]])] "t" []).1
      rfl rfl rfl,
   (C7_upload_platform_top_level
      [("platform", .str "instagram"), ("items", .arr [])] "t" []).2.1
      (.str "instagram") rfl rfl rfl,
   (C7_upload_platform_top_level
      [("platform", .str ""), ("items", .arr [])] "t" []).2.2.1
      (.str "") rfl rfl rfl,
   (C7_upload_platform_top_level
      [("sourcePlatform", .str "tiktok"), ("items", .arr [])] "t" []).2.2.2.1
      (.str "tiktok") rfl rfl rfl rfl,
   (C7_upload_platform_top_level
      [("sourcePlatform", Json.null), ("items", .arr [])] "t" []).2.2.2.2
      Json.null rfl rfl rfl rfl⟩

/-! ### Manual paste -/

theorem manualLines_eq_map_filter (urls : String) :
    manualLines urls =
      ((pySplitlines urls).map pyStrip).filter (fun s => s ≠ "") := by
  unfold manualLines
  induction pySplitlines urls with
  | nil => rfl
  | cons a l ih =>
    by_cases h : pyStrip a = ""
    · simp [List.filterMap_cons, List.filter_cons, h]
      simpa using ih
    · simp [List.filterMap_cons, List.filter_cons, h]
      simpa using ih

/-- C8: the manual-paste handler splits the raw text on line boundaries,
trims each line, drops blank lines, and stores one item per remaining line
with an empty caption and the line itself as the (unvalidated) url; the
spec's concrete input yields exactly its two non-blank lines. -/
theorem C8_manual_paste (platform dateISO urls now : String)
    (store : List IngestRecord) :
    manualLines urls =
      ((pySplitlines urls).map pyStrip).filter (fun s => s ≠ "") ∧
    ((manual_links platform dateISO urls now store).head?).map
        (fun r => r.items) =
      some (.arr ((manualLines urls).map (manualItem platform dateISO))) ∧
    ((manual_links platform dateISO urls now store).head?).map
        (fun r => r.count) = some (manualLines urls).length ∧
    manualLines "https://a.example/1\n\nhttps://a.example/2\n  \n" =
      ["https://a.example/1", "https://a.example/2"] := by
  refine ⟨manualLines_eq_map_filter urls, ?_, ?_, rfl⟩ <;>
    simp [manual_links, head?_push_ingest]

/-! ### Upload of non-object JSON and verbatim items -/

/-- C9: syntactically valid JSON whose top-level value is not an object
(an array, a string, a number) makes the upload handler crash at the
`payload.get` field extraction: the outcome is the unhandled-error branch,
distinct from the invalid-JSON response, and nothing is stored. -/
theorem C9_upload_non_object_unhandled (now : String)
    (store : List IngestRecord) :
    upload_json (some (.arr [])) now store = (store, .unhandled) ∧
    upload_json (some (.str "x")) now store = (store, .unhandled) ∧
    upload_json (some (.num 5)) now store = (store, .unhandled) ∧
    (UploadResult.unhandled ≠ UploadResult.invalidJson) :=
  ⟨rfl, rfl, rfl, fun h => UploadResult.noConfusion h⟩

/-- C10 counterexample: the upload body `{"items": null}` parses as a JSON
object, yet nothing is stored — `len(None)` raises and the handler ends in
the unhandled-error branch, contradicting the claim that every object
upload stores its items value verbatim. -/
theorem C10_items_null_counterexample :
    upload_json (some (.obj [("items", Json.null)])) "t" [] =
      ([], .unhandled) := rfl

/-- C10 amended: for every uploaded JSON object whose `items` value has a
Python length (a list, string or object; an absent key defaults to the
empty list), the new record stores that value verbatim — no URL
validation, no per-item normalization — with `count` set to that length;
for `items` values without a length (null, booleans, numbers) the handler
fails unhandled and stores nothing. -/
theorem C10_items_stored_verbatim (kvs : List (String × Json))
    (now : String) (store : List IngestRecord) :
    (∀ n, pyLen (jsonGetD (.obj kvs) "items" (.arr [])) = some n →
      (upload_json (some (.obj kvs)) now store).2 = .saved ∧
      ((upload_json (some (.obj kvs)) now store).1.head?).map
          (fun r => r.items) =
        some (jsonGetD (.obj kvs) "items" (.arr [])) ∧
      ((upload_json (some (.obj kvs)) now store).1.head?).map
          (fun r => r.count) = some n) ∧
    (pyLen (jsonGetD (.obj kvs) "items" (.arr [])) = none →
      upload_json (some (.obj kvs)) now store = (store, .unhandled)) := by
  constructor
  · intro n hlen
    simp only [upload_json]
    rw [hlen]
    exact ⟨rfl, by simp [head?_push_ingest, uploadRecord],
      by simp [head?_push_ingest, uploadRecord]⟩
  · intro hlen
    simp only [upload_json]
    rw [hlen]

/-- C10 witness: the upload `{"items": [{}]}` is saved with the single
url-less item stored verbatim and `count = 1`. -/
theorem C10_items_stored_verbatim_witness :
    pyLen (jsonGetD (.obj [("items", .arr [.obj []])]) "items" (.arr [])) =
      some 1 ∧
    ((upload_json (some (.obj [("items", .arr [.obj []])])) "t" []).2 =
        .saved ∧
      ((upload_json (some (.obj [("items", .arr [.obj []])])) "t" [])
          |>.1.head?).map (fun r => r.items) = some (.arr [.obj []]) ∧
      ((upload_json (some (.obj [("items", .arr [.obj []])])) "t" [])
          |>.1.head?).map (fun r => r.count) = some 1) :=
  ⟨rfl,
   (C10_items_stored_verbatim [("items", .arr [.obj []])] "t" []).1 1 rfl⟩

end LinkIngestor
